import Mathlib

/-!
Verification development for a chat-platform bot (`bot.py`).

The bot's command handlers are embedded as pure Lean functions over an
explicit `BotState` (the in-memory dictionaries `last_ai_use`, `user_images`,
`user_tasks` plus the four Mongo collections and the mutable log-channel
setting).  Asynchronous side effects (replies, photo delivery, task spawning,
provider calls, sleeps, broadcast sends, error logging) are recorded as an
event trace `List Ev`.  External nondeterminism (the image provider, the
broadcast transport, the random gift-code generator, the message timestamp)
is passed in as explicit oracle arguments.  Timestamps are modelled as `Int`
seconds; `message.date` subtraction with `.total_seconds()` becomes integer
subtraction.
-/

/-- Observable effects emitted by a handler or a background task, in order. -/
inductive Ev : Type where
  | reply (s : String)
  | replyHTML (s : String)
  | logMirror (ch : String) (s : String)
  | taskStarted (tid : Nat)
  | providerCall (prompt : String)
  | sendPhoto (uid : Nat) (url : String)
  | sendMessage (uid : Nat) (s : String)
  | errorLogged (rid : Nat)
  | sleep (n : Nat)
deriving DecidableEq, Repr

/-- Which command created a background task (`generate_image_task` for `/ai`,
`generate_proai_task` for `/proai`); both share the `user_tasks` registry. -/
inductive TaskKind : Type where
  | ai
  | proai
deriving DecidableEq, Repr

/-- Model of an `asyncio.Task` object: its owner, kind, and the `done` /
`cancelled` observables used by the cancel handlers. -/
structure TaskRec where
  owner : Nat
  kind : TaskKind
  done : Bool
  cancelled : Bool
deriving DecidableEq, Repr

/-- A document of the `users` collection (upserted by `/start`). -/
structure UserDoc where
  user_id : Nat
  username : String
  full_name : String
deriving DecidableEq, Repr

/-- A document of the `groups` collection. -/
structure GroupDoc where
  group_id : Nat
  title : String
deriving DecidableEq, Repr

/-- The bot's mutable state: the three in-memory dictionaries, a pool of
task objects (`tasks` / `next_task_id` model the identity of `asyncio.Task`
objects so that an overwritten handle can still be observed), the four Mongo
collections, and the mutable `LOG_CHANNEL_ID`. -/
structure BotState where
  last_ai_use : List (Nat × Int)
  user_images : List (Nat × String)
  user_tasks : List (Nat × Nat)
  tasks : List (Nat × TaskRec)
  next_task_id : Nat
  users_collection : List UserDoc
  groups_collection : List GroupDoc
  subscriptions_collection : List (Nat × String)
  gift_codes_collection : List (String × String)
  log_channel : Option String
deriving DecidableEq, Repr

/-- First-match association-list lookup (python `d[k]` / mongo `find_one`). -/
def alLookup {α β : Type} [DecidableEq α] : List (α × β) → α → Option β
  | [], _ => none
  | (a, b) :: rest, k => if a = k then some b else alLookup rest k

/-- Overwriting insert (python `d[k] = v` / mongo `update_one` with upsert). -/
def alInsert {α β : Type} [DecidableEq α] : List (α × β) → α → β → List (α × β)
  | [], k, v => [(k, v)]
  | (a, b) :: rest, k, v =>
      if a = k then (k, v) :: rest else (a, b) :: alInsert rest k v

/-- `log_message`: mirrors the bot response to `LOG_CHANNEL_ID` when it is
configured, otherwise does nothing. -/
def log_message (logch : Option String) (botResponse : String) : List Ev :=
  match logch with
  | some ch => [Ev.logMirror ch botResponse]
  | none => []

/-- Python `str.split(' ')`: split on every single space, keeping empty
pieces (so `"a  b"` gives `["a", "", "b"]` and `""` gives `[""]`). -/
def splitSpace : List Char → List (List Char)
  | [] => [[]]
  | c :: rest =>
      match splitSpace rest with
      | [] => [[c]]
      | w :: ws => if c = ' ' then [] :: w :: ws else (c :: w) :: ws

/-- Python `' '.join(...)` on the pieces of a split. -/
def joinSpace : List (List Char) → List Char
  | [] => []
  | [w] => w
  | w :: ws => w ++ ' ' :: joinSpace ws

/-- Python `' '.join(message.text.split(' ')[1:])`: everything after the
command word. -/
def extractArgTail (text : String) : String :=
  String.mk (joinSpace ((splitSpace text.data).drop 1))

/-- Python `message.text.split(' ')[1:]` used as an argument list. -/
def splitArgs (text : String) : List String :=
  ((splitSpace text.data).drop 1).map String.mk

/-- `asyncio.create_task(...)` followed by `user_tasks[user_id] = task`:
allocates a fresh task object and unconditionally overwrites the user's slot
in the registry.  Returns the new state and the new task's id. -/
def registerTask (st : BotState) (uid : Nat) (kind : TaskKind) : BotState × Nat :=
  let tid := st.next_task_id
  ({ st with
      tasks := alInsert st.tasks tid ⟨uid, kind, false, false⟩
      user_tasks := alInsert st.user_tasks uid tid
      next_task_id := tid + 1 }, tid)

def aiWaitMsg : String := "Please wait for 5 seconds before using the /ai command again."

def aiNoPromptMsg : String := "Please provide a prompt after the /ai command."

/-- Body of `ai_command` after the rate-limit gate: record the timestamp,
then validate the prompt; a non-empty prompt spawns `generate_image_task`. -/
def ai_command_allowed (st : BotState) (uid : Nat) (text : String) (now : Int) :
    BotState × List Ev :=
  let st1 := { st with last_ai_use := alInsert st.last_ai_use uid now }
  let prompt := extractArgTail text
  if prompt = "" then
    (st1, Ev.reply aiNoPromptMsg :: log_message st1.log_channel aiNoPromptMsg)
  else
    let r := registerTask st1 uid TaskKind.ai
    (r.1, [Ev.reply "Generating image...", Ev.taskStarted r.2])

/-- `ai_command`: deny with the wait message when a recorded timestamp is less
than 5 seconds old, otherwise proceed. -/
def ai_command (st : BotState) (uid : Nat) (text : String) (now : Int) :
    BotState × List Ev :=
  match alLookup st.last_ai_use uid with
  | some last =>
      if now - last < 5 then
        (st, Ev.reply aiWaitMsg :: log_message st.log_channel aiWaitMsg)
      else
        ai_command_allowed st uid text now
  | none => ai_command_allowed st uid text now

/-- The rate-limit condition of `ai_command` (negation of the deny test). -/
def aiAllowed (st : BotState) (uid : Nat) (now : Int) : Bool :=
  match alLookup st.last_ai_use uid with
  | none => true
  | some last => decide (5 ≤ now - last)

def cancelaiOkMsg : String := "Your /ai command has been canceled."

def cancelaiNoneMsg : String := "You do not have any active /ai command."

def cancelproaiOkMsg : String := "Your /proai command has been canceled."

def cancelproaiNoneMsg : String := "You do not have any active /proai command."

/-- `cancelai_command`: if the registry holds a not-yet-done task for the
user, signal cancellation on it and report success; otherwise report that no
active command exists, touching nothing. -/
def cancelai_command (st : BotState) (uid : Nat) : BotState × List Ev :=
  match alLookup st.user_tasks uid with
  | some tid =>
      match alLookup st.tasks tid with
      | some tr =>
          if tr.done = false then
            ({ st with tasks := alInsert st.tasks tid { tr with cancelled := true } },
             [Ev.reply cancelaiOkMsg])
          else (st, [Ev.reply cancelaiNoneMsg])
      | none => (st, [Ev.reply cancelaiNoneMsg])
  | none => (st, [Ev.reply cancelaiNoneMsg])

/-- `cancelproai_command`: same logic as `cancelai_command` over the shared
registry, with the `/proai` wording. -/
def cancelproai_command (st : BotState) (uid : Nat) : BotState × List Ev :=
  match alLookup st.user_tasks uid with
  | some tid =>
      match alLookup st.tasks tid with
      | some tr =>
          if tr.done = false then
            ({ st with tasks := alInsert st.tasks tid { tr with cancelled := true } },
             [Ev.reply cancelproaiOkMsg])
          else (st, [Ev.reply cancelproaiNoneMsg])
      | none => (st, [Ev.reply cancelproaiNoneMsg])
  | none => (st, [Ev.reply cancelproaiNoneMsg])

/-- Mongo `find_one_and_delete({'code': c})` on the gift-code collection:
returns the first document whose code matches (if any) and the collection
with that document removed. -/
def find_one_and_delete : List (String × String) → String →
    Option (String × String) × List (String × String)
  | [], _ => (none, [])
  | (k, p) :: rest, c =>
      if k = c then (some (k, p), rest)
      else
        let r := find_one_and_delete rest c
        (r.1, (k, p) :: r.2)

def redeemSuccessMsg : String :=
  "You have successfully redeemed the code and upgraded to the professional plan."

def redeemInvalidMsg : String := "Invalid or already redeemed gift code."

def redeemUsageMsg : String := "Usage: /redeem <gift_code>"

/-- `redeem_command`: with exactly one argument, atomically pop the code from
the store; on a hit, upsert the caller's subscription to "professional". -/
def redeem_command (st : BotState) (uid : Nat) (text : String) :
    BotState × List Ev :=
  match splitArgs text with
  | [code] =>
      let r := find_one_and_delete st.gift_codes_collection code
      match r.1 with
      | some _ =>
          let st1 := { st with
            gift_codes_collection := r.2
            subscriptions_collection :=
              alInsert st.subscriptions_collection uid "professional" }
          (st1, Ev.reply redeemSuccessMsg :: log_message st1.log_channel redeemSuccessMsg)
      | none =>
          (st, Ev.reply redeemInvalidMsg :: log_message st.log_channel redeemInvalidMsg)
  | _ => (st, Ev.reply redeemUsageMsg :: log_message st.log_channel redeemUsageMsg)

def proaiNeedRedeemMsg : String := "You need to redeem a gift code to use the /proai command."

def proaiNoPromptMsg : String := "Please provide a prompt after the /proai command."

def proaiErrMsg : String :=
  "Sorry, there was an error generating one of the images. Please contact @AkhandanandTripathi to fix it."

/-- The prompt of step `i` (0-based loop index) in `generate_proai_task`:
python f-string `f"{prompt} (image {i + 1} improving each time)"`. -/
def proaiStepPrompt (prompt : String) (i : Nat) : String :=
  prompt ++ " (image " ++ toString (i + 1) ++ " improving each time)"

/-- Loop body of `generate_proai_task`, running `fuel` remaining iterations
starting at loop index `i`: call the provider, deliver the photo and mirror
it then sleep 5 on success; on failure send one error notice, mirror it and
break. -/
def generate_proai_go (provider : String → Option String) (uid : Nat)
    (logch : Option String) (prompt : String) : Nat → Nat → List Ev
  | 0, _ => []
  | fuel + 1, i =>
      match provider (proaiStepPrompt prompt i) with
      | some url =>
          Ev.providerCall (proaiStepPrompt prompt i) :: Ev.sendPhoto uid url ::
            (log_message logch url ++
              (Ev.sleep 5 :: generate_proai_go provider uid logch prompt fuel (i + 1)))
      | none =>
          Ev.providerCall (proaiStepPrompt prompt i) :: Ev.sendMessage uid proaiErrMsg ::
            log_message logch proaiErrMsg

/-- `generate_proai_task`: `for i in range(15)` over the loop body. -/
def generate_proai_task (provider : String → Option String) (uid : Nat)
    (logch : Option String) (prompt : String) : List Ev :=
  generate_proai_go provider uid logch prompt 15 0

/-- The trace of one fully successful step: provider call, photo delivery,
log mirror, then the fixed 5-unit delay. -/
def proaiStepBlock (provider : String → Option String) (uid : Nat)
    (logch : Option String) (prompt : String) (i : Nat) : List Ev :=
  Ev.providerCall (proaiStepPrompt prompt i) ::
    Ev.sendPhoto uid ((provider (proaiStepPrompt prompt i)).getD "") ::
      (log_message logch ((provider (proaiStepPrompt prompt i)).getD "") ++ [Ev.sleep 5])

/-- Number of direct-message failure notices (`bot.send_message`) in a trace. -/
def countFailNotices : List Ev → Nat
  | [] => 0
  | Ev.sendMessage _ _ :: rest => countFailNotices rest + 1
  | _ :: rest => countFailNotices rest

/-- The provider prompts requested in a trace, in order. -/
def providerPrompts : List Ev → List String
  | [] => []
  | Ev.providerCall p :: rest => p :: providerPrompts rest
  | _ :: rest => providerPrompts rest

/-- `proai_command`: gate on a subscription record with plan "professional",
then validate the prompt and spawn `generate_proai_task`. -/
def proai_command (st : BotState) (uid : Nat) (text : String) :
    BotState × List Ev :=
  match alLookup st.subscriptions_collection uid with
  | some plan =>
      if plan = "professional" then
        let prompt := extractArgTail text
        if prompt = "" then
          (st, Ev.reply proaiNoPromptMsg :: log_message st.log_channel proaiNoPromptMsg)
        else
          let r := registerTask st uid TaskKind.proai
          (r.1, [Ev.reply "Generating images...", Ev.taskStarted r.2])
      else
        (st, Ev.reply proaiNeedRedeemMsg :: log_message st.log_channel proaiNeedRedeemMsg)
  | none =>
      (st, Ev.reply proaiNeedRedeemMsg :: log_message st.log_channel proaiNeedRedeemMsg)

/-- `is_owner`: the caller id equals the configured `BOT_OWNER_ID`. -/
def is_owner (ownerId uid : Nat) : Bool := decide (uid = ownerId)

/-- The apostrophe character, spelled out for use inside message texts. -/
def apos : String := String.singleton (Char.ofNat 39)

def noPermMsg : String :=
  "You don" ++ apos ++
    "t have permission to use this command. Please ask @AkhandanandTripathi to do it."

def notCapableMsg : String := "Ummmm, you are not capable of it."

def broadcastSentMsg : String := "Broadcast message sent."

def broadcastUsageMsg : String := "Usage: /broadcast <message>"

def setlogUsageMsg : String := "Usage: /setlogchannel <log_channel_id>"

/-- `generate_command`: owner-only; inserts a fresh gift code (the random
output of `generate_code()` is passed in as the `code` oracle argument) with
plan "professional" and replies with it. -/
def generate_command (ownerId : Nat) (st : BotState) (uid : Nat) (code : String) :
    BotState × List Ev :=
  if is_owner ownerId uid then
    let st1 := { st with gift_codes_collection :=
      st.gift_codes_collection ++ [(code, "professional")] }
    let resp := "Generated gift code: " ++ code
    (st1, Ev.reply resp :: log_message st1.log_channel resp)
  else
    (st, Ev.reply noPermMsg :: log_message st.log_channel noPermMsg)

/-- `setlogchannel_command`: owner-only; with exactly one argument overwrites
the global `LOG_CHANNEL_ID` (so the confirmation itself is mirrored to the
new channel). -/
def setlogchannel_command (ownerId : Nat) (st : BotState) (uid : Nat)
    (text : String) : BotState × List Ev :=
  if is_owner ownerId uid then
    match splitArgs text with
    | [chId] =>
        let st1 := { st with log_channel := some chId }
        let resp := "Log channel set to " ++ chId
        (st1, Ev.reply resp :: log_message st1.log_channel resp)
    | _ =>
        (st, Ev.reply setlogUsageMsg :: log_message st.log_channel setlogUsageMsg)
  else
    (st, Ev.reply noPermMsg :: log_message st.log_channel noPermMsg)

/-- The per-user HTML block sent by `/users` for one user document. -/
def userInfoText (ud : UserDoc) : String :=
  "<b>User ID:</b> " ++ toString ud.user_id ++
    "\n<b>Username:</b> @" ++ ud.username ++
    "\n<b>Name:</b> " ++ ud.full_name ++
    "\n<b>Permanent Link:</b> <a href=" ++ apos ++ "tg://user?id=" ++
    toString ud.user_id ++ apos ++ ">Open Chat</a>"

/-- `users_command`: owner-only; replies one HTML block per stored user,
mirroring each; a non-owner gets a refusal. -/
def users_command (ownerId : Nat) (st : BotState) (uid : Nat) :
    BotState × List Ev :=
  if is_owner ownerId uid then
    (st, (st.users_collection.map (fun ud =>
        Ev.replyHTML (userInfoText ud) ::
          log_message st.log_channel (userInfoText ud))).flatten)
  else
    (st, Ev.reply notCapableMsg :: log_message st.log_channel notCapableMsg)

/-- `broadcast_command`: owner-only; sends the message to every stored user
then every stored group, catching the per-recipient delivery error (the
`dOk` oracle says whether `bot.send_message` succeeds for a recipient id; a
failure is logged), and finally replies "Broadcast message sent.". -/
def broadcast_command (dOk : Nat → Bool) (ownerId : Nat) (st : BotState)
    (uid : Nat) (text : String) : BotState × List Ev :=
  if is_owner ownerId uid then
    let msg := extractArgTail text
    if msg = "" then
      (st, Ev.reply broadcastUsageMsg :: log_message st.log_channel broadcastUsageMsg)
    else
      (st,
        (st.users_collection.map (fun ud =>
          if dOk ud.user_id then Ev.sendMessage ud.user_id msg
          else Ev.errorLogged ud.user_id)) ++
        (st.groups_collection.map (fun gd =>
          if dOk gd.group_id then Ev.sendMessage gd.group_id msg
          else Ev.errorLogged gd.group_id)) ++
        (Ev.reply broadcastSentMsg :: log_message st.log_channel broadcastSentMsg))
  else
    (st, Ev.reply notCapableMsg :: log_message st.log_channel notCapableMsg)

/-- `ping_command`: both timestamps are read from the same `message.date`,
so the reported round trip is `(date - date) * 1000` milliseconds. -/
def ping_command (st : BotState) (date : Int) : BotState × List Ev :=
  let start_time := date
  let end_time := date
  let ping_time := (end_time - start_time) * 1000
  let resp := "Pong! " ++ toString ping_time ++ " ms"
  (st, Ev.reply "Pong!" :: Ev.reply resp :: log_message st.log_channel resp)

/-- Whether an event is a direct `message.reply`. -/
def isReplyEv : Ev → Bool
  | Ev.reply _ => true
  | _ => false

/-- A provider oracle for witnesses: always succeeds. -/
def provOk : String → Option String := fun _ => some "http://img"

/-- A provider oracle for witnesses: fails exactly on the step-3 prompt of
the prompt "cat" (loop index 2). -/
def provFail2 : String → Option String :=
  fun s => if s = proaiStepPrompt "cat" 2 then none else some "http://img"

/-- A concrete state used by witnesses: everything empty, log channel set. -/
def st0 : BotState :=
  ⟨[], [], [], [], 0, [], [], [], [], some "log"⟩

/-- A concrete state holding one unredeemed gift code, used by witnesses. -/
def stRedeem : BotState :=
  ⟨[], [], [], [], 0, [], [], [], [("ABC123", "professional")], some "log"⟩

/-- A concrete state with one stored user (id 7) and one stored group
(id 8), used by the broadcast witness. -/
def stBroadcast : BotState :=
  ⟨[], [], [], [], 0, [⟨7, "alice", "Alice A"⟩], [⟨8, "The Group"⟩], [], [],
    some "log"⟩

/-- A delivery oracle for witnesses: delivery to recipient 7 raises, every
other recipient succeeds. -/
def dOkExceptSeven : Nat → Bool := fun rid => decide (rid ≠ 7)

theorem alLookup_alInsert_self {α β : Type} [DecidableEq α]
    (l : List (α × β)) (k : α) (v : β) : alLookup (alInsert l k v) k = some v := by
  induction l with
  | nil => simp [alInsert, alLookup]
  | cons hd tl ih =>
      obtain ⟨a, b⟩ := hd
      by_cases h : a = k
      · simp [alInsert, alLookup, h]
      · simp [alInsert, alLookup, h, ih]

theorem alLookup_alInsert_ne {α β : Type} [DecidableEq α]
    (l : List (α × β)) (k k' : α) (v : β) (hne : k ≠ k') :
    alLookup (alInsert l k v) k' = alLookup l k' := by
  induction l with
  | nil => simp [alInsert, alLookup, hne]
  | cons hd tl ih =>
      obtain ⟨a, b⟩ := hd
      by_cases h : a = k
      · subst h
        simp [alInsert, alLookup, hne]
      · simp [alInsert, alLookup, h, ih]

/-- C1: For every user and every pair of `/ai` invocations: an invocation is
allowed iff the user has no recorded timestamp or `now - last >= 5` seconds
(the condition computed by `aiAllowed`); on allow the user's timestamp is
updated to `now` (so a follow-up invocation at time `t2` is allowed exactly
when `5 ≤ t2 - now`); on deny no state changes and the user receives the
"please wait" reply. -/
theorem ai_rate_limiter_correct (st : BotState) (uid : Nat) (text : String) (now : Int) :
    (aiAllowed st uid now = true →
        alLookup (ai_command st uid text now).1.last_ai_use uid = some now
      ∧ ∀ t2 : Int,
          aiAllowed (ai_command st uid text now).1 uid t2 = decide (5 ≤ t2 - now))
  ∧ (aiAllowed st uid now = false →
        (ai_command st uid text now).1 = st
      ∧ (ai_command st uid text now).2 =
          Ev.reply aiWaitMsg :: log_message st.log_channel aiWaitMsg) := by
  have hupd : ∀ st' : BotState,
      alLookup (ai_command_allowed st' uid text now).1.last_ai_use uid = some now := by
    intro st'
    unfold ai_command_allowed registerTask
    by_cases h : extractArgTail text = ""
    · simp [h, alLookup_alInsert_self]
    · simp [h, alLookup_alInsert_self]
  constructor
  · intro hallow
    have hmain : alLookup (ai_command st uid text now).1.last_ai_use uid = some now := by
      unfold ai_command
      unfold aiAllowed at hallow
      cases hlast : alLookup st.last_ai_use uid with
      | none => simp [hlast, hupd]
      | some last =>
          rw [hlast] at hallow
          have h5 : ¬ now - last < 5 := by
            simpa using of_decide_eq_true hallow
          simp [hlast, h5, hupd]
    refine ⟨hmain, ?_⟩
    intro t2
    unfold aiAllowed
    rw [hmain]
  · intro hdeny
    unfold ai_command
    unfold aiAllowed at hdeny
    cases hlast : alLookup st.last_ai_use uid with
    | none => rw [hlast] at hdeny; simp at hdeny
    | some last =>
        rw [hlast] at hdeny
        have h5 : now - last < 5 := by
          have := of_decide_eq_false hdeny
          omega
        simp [hlast, h5]

/-- Witness for C1: user 1 has no timestamp at time 10, so `/ai cat` is
allowed and records the timestamp; at the recorded state, time 12 is denied
and yields the wait reply unchanged. -/
theorem ai_rate_limiter_correct_witness :
    (alLookup (ai_command st0 1 "/ai cat" 10).1.last_ai_use 1 = some 10)
  ∧ ((ai_command (ai_command st0 1 "/ai cat" 10).1 1 "/ai cat" 12).1 =
        (ai_command st0 1 "/ai cat" 10).1) := by
  have h1 := (ai_rate_limiter_correct st0 1 "/ai cat" 10).1 (by decide)
  have h2 := (ai_rate_limiter_correct (ai_command st0 1 "/ai cat" 10).1 1 "/ai cat" 12).2
  refine ⟨h1.1, ?_⟩
  have hdeny : aiAllowed (ai_command st0 1 "/ai cat" 10).1 1 12 = false := by
    have := h1.2 12
    rw [this]
    decide
  exact (h2 hdeny).1

theorem alLookup_eq_none_of_not_mem {α β : Type} [DecidableEq α]
    (l : List (α × β)) (k : α) (h : k ∉ l.map Prod.fst) : alLookup l k = none := by
  induction l with
  | nil => rfl
  | cons hd tl ih =>
      obtain ⟨a, b⟩ := hd
      simp only [List.map_cons, List.mem_cons] at h
      push_neg at h
      have ha : a ≠ k := fun hh => h.1 hh.symm
      simp [alLookup, ha, ih h.2]

theorem find_one_and_delete_absent (l : List (String × String)) (c : String)
    (h : c ∉ l.map Prod.fst) : find_one_and_delete l c = (none, l) := by
  induction l with
  | nil => rfl
  | cons hd tl ih =>
      obtain ⟨k, p⟩ := hd
      simp only [List.map_cons, List.mem_cons] at h
      push_neg at h
      have hk : k ≠ c := fun hh => h.1 hh.symm
      simp [find_one_and_delete, hk, ih h.2]

theorem find_one_and_delete_present (l : List (String × String)) (c : String)
    (h : c ∈ l.map Prod.fst) : ∃ p, (find_one_and_delete l c).1 = some (c, p) := by
  induction l with
  | nil => simp at h
  | cons hd tl ih =>
      obtain ⟨k, p⟩ := hd
      by_cases hk : k = c
      · subst hk
        exact ⟨p, by simp [find_one_and_delete]⟩
      · have hc : c ∈ tl.map Prod.fst := by
          simp only [List.map_cons, List.mem_cons] at h
          rcases h with h | h
          · exact absurd h.symm hk
          · exact h
        obtain ⟨q, hq⟩ := ih hc
        exact ⟨q, by simp [find_one_and_delete, hk, hq]⟩

theorem find_one_and_delete_key_not_mem (l : List (String × String)) (c : String)
    (hnodup : (l.map Prod.fst).Nodup) :
    c ∉ ((find_one_and_delete l c).2.map Prod.fst) := by
  induction l with
  | nil => simp [find_one_and_delete]
  | cons hd tl ih =>
      obtain ⟨k, p⟩ := hd
      simp only [List.map_cons, List.nodup_cons] at hnodup
      by_cases hk : k = c
      · subst hk
        simpa [find_one_and_delete] using hnodup.1
      · have htl := ih hnodup.2
        simp only [find_one_and_delete, hk, if_false, List.map_cons, List.mem_cons]
        push_neg
        exact ⟨fun hh => hk hh.symm, htl⟩

theorem redeem_command_absent (st : BotState) (uid : Nat) (text code : String)
    (hargs : splitArgs text = [code])
    (habs : code ∉ st.gift_codes_collection.map Prod.fst) :
    redeem_command st uid text =
      (st, Ev.reply redeemInvalidMsg :: log_message st.log_channel redeemInvalidMsg) := by
  unfold redeem_command
  rw [hargs]
  simp [find_one_and_delete_absent st.gift_codes_collection code habs]

/-- C2: `/redeem` of a code present in the store deletes the code, upserts the
caller's subscription to "professional", and replies with the success message;
afterwards the code no longer exists and a second `/redeem` of it (by any
caller) replies with the invalid-code message and mutates nothing.  `/redeem`
of an absent code replies with the invalid-code message and mutates nothing. -/
theorem gift_code_single_redemption (st : BotState) (uid uid2 : Nat)
    (text code : String) (hargs : splitArgs text = [code])
    (hnodup : (st.gift_codes_collection.map Prod.fst).Nodup) :
    (code ∈ st.gift_codes_collection.map Prod.fst →
        alLookup (redeem_command st uid text).1.gift_codes_collection code = none
      ∧ alLookup (redeem_command st uid text).1.subscriptions_collection uid =
          some "professional"
      ∧ (redeem_command st uid text).2.head? = some (Ev.reply redeemSuccessMsg)
      ∧ redeem_command (redeem_command st uid text).1 uid2 text =
          ((redeem_command st uid text).1,
           Ev.reply redeemInvalidMsg ::
             log_message (redeem_command st uid text).1.log_channel redeemInvalidMsg))
  ∧ (code ∉ st.gift_codes_collection.map Prod.fst →
        redeem_command st uid text =
          (st, Ev.reply redeemInvalidMsg :: log_message st.log_channel redeemInvalidMsg)) := by
  constructor
  · intro hmem
    obtain ⟨p, hp⟩ := find_one_and_delete_present st.gift_codes_collection code hmem
    have hred : redeem_command st uid text =
        ({ st with
            gift_codes_collection := (find_one_and_delete st.gift_codes_collection code).2
            subscriptions_collection :=
              alInsert st.subscriptions_collection uid "professional" },
         Ev.reply redeemSuccessMsg :: log_message st.log_channel redeemSuccessMsg) := by
      unfold redeem_command
      rw [hargs]
      simp [hp]
    have hnot := find_one_and_delete_key_not_mem st.gift_codes_collection code hnodup
    rw [hred]
    refine ⟨alLookup_eq_none_of_not_mem _ _ hnot, alLookup_alInsert_self _ _ _, rfl, ?_⟩
    exact redeem_command_absent _ uid2 text code hargs hnot
  · intro habs
    exact redeem_command_absent st uid text code hargs habs

/-- Witness for C2: redeeming the stored code "ABC123" deletes it and
upgrades user 1 to the professional plan. -/
theorem gift_code_single_redemption_witness :
    alLookup (redeem_command stRedeem 1 "/redeem ABC123").1.gift_codes_collection
      "ABC123" = none
  ∧ alLookup (redeem_command stRedeem 1 "/redeem ABC123").1.subscriptions_collection 1 =
      some "professional" := by
  have h := (gift_code_single_redemption stRedeem 1 2 "/redeem ABC123" "ABC123"
      rfl (by decide)).1 (by decide)
  exact ⟨h.1, h.2.1⟩

/-- C3: the registry holds at most one handle per user: `registerTask`
unconditionally overwrites the user's slot, so after starting a second task a
cancel marks only the newest task object cancelled while the replaced one is
untouched; and a cancel reports success (the "canceled" reply) iff a
registered, not-yet-done handle exists for the user, otherwise it replies
"no active command" and changes nothing. -/
theorem task_registry_single_slot (st : BotState) (uid : Nat) (k k2 : TaskKind) :
    alLookup (registerTask st uid k).1.user_tasks uid = some st.next_task_id
  ∧ (alLookup
        (cancelai_command (registerTask (registerTask st uid k).1 uid k2).1 uid).1.tasks
        st.next_task_id = some ⟨uid, k, false, false⟩
     ∧ alLookup
        (cancelai_command (registerTask (registerTask st uid k).1 uid k2).1 uid).1.tasks
        (st.next_task_id + 1) = some ⟨uid, k2, false, true⟩
     ∧ (cancelai_command (registerTask (registerTask st uid k).1 uid k2).1 uid).2 =
        [Ev.reply cancelaiOkMsg])
  ∧ (∀ st' : BotState,
       ((cancelai_command st' uid).2 = [Ev.reply cancelaiOkMsg] ↔
         ∃ tid tr, alLookup st'.user_tasks uid = some tid ∧
           alLookup st'.tasks tid = some tr ∧ tr.done = false)
     ∧ ((¬ ∃ tid tr, alLookup st'.user_tasks uid = some tid ∧
           alLookup st'.tasks tid = some tr ∧ tr.done = false) →
         cancelai_command st' uid = (st', [Ev.reply cancelaiNoneMsg]))) := by
  refine ⟨?_, ?_, ?_⟩
  · simp [registerTask, alLookup_alInsert_self]
  · have hne : st.next_task_id + 1 ≠ st.next_task_id := by omega
    simp [registerTask, cancelai_command, alLookup_alInsert_self,
      alLookup_alInsert_ne _ _ _ _ hne]
  · intro st'
    have hstr : cancelaiNoneMsg ≠ cancelaiOkMsg := by decide
    constructor
    · constructor
      · intro hok
        cases h1 : alLookup st'.user_tasks uid with
        | none =>
            simp [cancelai_command, h1] at hok
            exact absurd hok hstr
        | some tid =>
            cases h2 : alLookup st'.tasks tid with
            | none =>
                simp [cancelai_command, h1, h2] at hok
                exact absurd hok hstr
            | some tr =>
                by_cases h3 : tr.done = false
                · exact ⟨tid, tr, rfl, h2, h3⟩
                · simp [cancelai_command, h1, h2, h3] at hok
                  exact absurd hok hstr
      · rintro ⟨tid, tr, h1, h2, h3⟩
        simp [cancelai_command, h1, h2, h3]
    · intro hno
      push_neg at hno
      cases h1 : alLookup st'.user_tasks uid with
      | none => simp [cancelai_command, h1]
      | some tid =>
          cases h2 : alLookup st'.tasks tid with
          | none => simp [cancelai_command, h1, h2]
          | some tr =>
              have h3 := hno tid tr h1 h2
              simp [cancelai_command, h1, h2, h3]

/-- Witness for C3: after user 5 starts an `/ai` task and then a `/proai`
task, a cancel leaves task 0 (the replaced one) uncancelled and marks task 1
cancelled. -/
theorem task_registry_single_slot_witness :
    alLookup
      (cancelai_command (registerTask (registerTask st0 5 TaskKind.ai).1 5
        TaskKind.proai).1 5).1.tasks 0 = some ⟨5, TaskKind.ai, false, false⟩
  ∧ alLookup
      (cancelai_command (registerTask (registerTask st0 5 TaskKind.ai).1 5
        TaskKind.proai).1 5).1.tasks 1 = some ⟨5, TaskKind.proai, false, true⟩ := by
  have h := (task_registry_single_slot st0 5 TaskKind.ai TaskKind.proai).2.1
  exact ⟨h.1, h.2.1⟩

theorem countFailNotices_append (a b : List Ev) :
    countFailNotices (a ++ b) = countFailNotices a + countFailNotices b := by
  induction a with
  | nil => simp [countFailNotices]
  | cons hd tl ih => cases hd <;> simp [countFailNotices, ih] <;> omega

theorem providerPrompts_append (a b : List Ev) :
    providerPrompts (a ++ b) = providerPrompts a ++ providerPrompts b := by
  induction a with
  | nil => simp [providerPrompts]
  | cons hd tl ih => cases hd <;> simp [providerPrompts, ih]

theorem countFailNotices_log_message (logch : Option String) (s : String) :
    countFailNotices (log_message logch s) = 0 := by
  cases logch <;> simp [log_message, countFailNotices]

theorem providerPrompts_log_message (logch : Option String) (s : String) :
    providerPrompts (log_message logch s) = [] := by
  cases logch <;> simp [log_message, providerPrompts]

theorem generate_proai_go_success (provider : String → Option String) (uid : Nat)
    (logch : Option String) (prompt : String) :
    ∀ (fuel i : Nat),
      (∀ j, i ≤ j → j < i + fuel → (provider (proaiStepPrompt prompt j)).isSome = true) →
      generate_proai_go provider uid logch prompt fuel i =
        ((List.range' i fuel).map (proaiStepBlock provider uid logch prompt)).flatten := by
  intro fuel
  induction fuel with
  | zero => intro i _; simp [generate_proai_go]
  | succ fuel ih =>
      intro i hall
      have hi : (provider (proaiStepPrompt prompt i)).isSome = true :=
        hall i (Nat.le_refl _) (by omega)
      obtain ⟨url, hurl⟩ := Option.isSome_iff_exists.mp hi
      have hrest := ih (i + 1) (fun j hj1 hj2 => hall j (by omega) (by omega))
      rw [List.range'_succ]
      simp only [List.map_cons, List.flatten_cons]
      rw [generate_proai_go, hurl, hrest]
      simp [proaiStepBlock, hurl]

theorem generate_proai_go_failure (provider : String → Option String) (uid : Nat)
    (logch : Option String) (prompt : String) :
    ∀ (fuel i kk : Nat), i ≤ kk → kk < i + fuel →
      provider (proaiStepPrompt prompt kk) = none →
      (∀ j, i ≤ j → j < kk → (provider (proaiStepPrompt prompt j)).isSome = true) →
      countFailNotices (generate_proai_go provider uid logch prompt fuel i) = 1
      ∧ providerPrompts (generate_proai_go provider uid logch prompt fuel i) =
          (List.range' i (kk + 1 - i)).map (proaiStepPrompt prompt) := by
  intro fuel
  induction fuel with
  | zero => intro i kk h1 h2; omega
  | succ fuel ih =>
      intro i kk h1 h2 hfail hpre
      by_cases hik : i = kk
      · subst hik
        rw [generate_proai_go, hfail]
        constructor
        · simp [countFailNotices, countFailNotices_log_message]
        · have : i + 1 - i = 1 := by omega
          rw [this]
          simp [providerPrompts, providerPrompts_log_message, List.range']
      · have hlt : i < kk := by omega
        have hi : (provider (proaiStepPrompt prompt i)).isSome = true :=
          hpre i (Nat.le_refl _) hlt
        obtain ⟨url, hurl⟩ := Option.isSome_iff_exists.mp hi
        have hrest := ih (i + 1) kk (by omega) (by omega) hfail
          (fun j hj1 hj2 => hpre j (by omega) hj2)
        rw [generate_proai_go, hurl]
        constructor
        · simp [countFailNotices, countFailNotices_append,
            countFailNotices_log_message, hrest.1]
        · have hn : kk + 1 - i = (kk - i) + 1 := by omega
          have hn2 : kk + 1 - (i + 1) = kk - i := by omega
          rw [hn, List.range'_succ]
          simp [providerPrompts, providerPrompts_append,
            providerPrompts_log_message, hrest.2, hn2]

theorem providerPrompts_go_length_le (provider : String → Option String) (uid : Nat)
    (logch : Option String) (prompt : String) :
    ∀ (fuel i : Nat),
      (providerPrompts (generate_proai_go provider uid logch prompt fuel i)).length ≤ fuel := by
  intro fuel
  induction fuel with
  | zero => intro i; simp [generate_proai_go, providerPrompts]
  | succ fuel ih =>
      intro i
      rw [generate_proai_go]
      cases hp : provider (proaiStepPrompt prompt i) with
      | some url =>
          simp only [providerPrompts, providerPrompts_append,
            providerPrompts_log_message]
          have := ih (i + 1)
          simp [providerPrompts]
          omega
      | none =>
          simp [providerPrompts, providerPrompts_log_message]

theorem providerPrompts_blocks (provider : String → Option String) (uid : Nat)
    (logch : Option String) (prompt : String) (l : List Nat) :
    providerPrompts ((l.map (proaiStepBlock provider uid logch prompt)).flatten) =
      l.map (proaiStepPrompt prompt) := by
  induction l with
  | nil => simp [providerPrompts]
  | cons hd tl ih =>
      simp [proaiStepBlock, providerPrompts, providerPrompts_append,
        providerPrompts_log_message, ih]

theorem taskStarted_not_mem_reply_log (tid : Nat) (logch : Option String) (m : String) :
    Ev.taskStarted tid ∉ Ev.reply m :: log_message logch m := by
  cases logch <;> simp [log_message]

/-- C4: if any step of the multi-step "pro" generation flow fails (first
failure at loop index `kk`), the flow sends exactly one failure notice and
the provider calls it performed are exactly those of steps `0..kk` in order:
no retry and no step after the failing one. -/
theorem proai_stops_on_first_failure (provider : String → Option String)
    (uid : Nat) (logch : Option String) (prompt : String) (kk : Nat)
    (hk : kk < 15) (hfail : provider (proaiStepPrompt prompt kk) = none)
    (hpre : ∀ j, j < kk → (provider (proaiStepPrompt prompt j)).isSome = true) :
    countFailNotices (generate_proai_task provider uid logch prompt) = 1
  ∧ providerPrompts (generate_proai_task provider uid logch prompt) =
      (List.range (kk + 1)).map (proaiStepPrompt prompt) := by
  have h := generate_proai_go_failure provider uid logch prompt 15 0 kk
    (Nat.zero_le _) (by omega) hfail (fun j _ hj => hpre j hj)
  rw [List.range_eq_range']
  simpa [generate_proai_task] using h

/-- Witness for C4: with a provider failing exactly at loop index 2, the task
trace holds exactly one failure notice. -/
theorem proai_stops_on_first_failure_witness :
    countFailNotices (generate_proai_task provFail2 1 none "cat") = 1 :=
  (proai_stops_on_first_failure provFail2 1 none "cat" 2 (by decide)
    (by decide) (by decide)).1

/-- C5: the "pro" flow performs at most 15 provider calls; when every call
succeeds it is exactly the 15 fixed step blocks in order — each step `i`
requesting the user prompt annotated as "image i+1 improving each time" and
each successful step followed by the fixed `sleep 5` delay. -/
theorem proai_fifteen_fixed_steps (provider : String → Option String)
    (uid : Nat) (logch : Option String) (prompt : String) :
    (providerPrompts (generate_proai_task provider uid logch prompt)).length ≤ 15
  ∧ ((∀ j, j < 15 → (provider (proaiStepPrompt prompt j)).isSome = true) →
       generate_proai_task provider uid logch prompt =
         ((List.range 15).map (proaiStepBlock provider uid logch prompt)).flatten
     ∧ providerPrompts (generate_proai_task provider uid logch prompt) =
         (List.range 15).map (proaiStepPrompt prompt)) := by
  constructor
  · exact providerPrompts_go_length_le provider uid logch prompt 15 0
  · intro hall
    have h := generate_proai_go_success provider uid logch prompt 15 0
      (fun j _ hj => hall j (by omega))
    have h' : generate_proai_task provider uid logch prompt =
        ((List.range 15).map (proaiStepBlock provider uid logch prompt)).flatten := by
      rw [List.range_eq_range']
      exact h
    refine ⟨h', ?_⟩
    rw [h']
    exact providerPrompts_blocks provider uid logch prompt (List.range 15)

/-- Witness for C5: with an always-succeeding provider, the trace requests
exactly the 15 step prompts. -/
theorem proai_fifteen_fixed_steps_witness :
    providerPrompts (generate_proai_task provOk 1 none "cat") =
      (List.range 15).map (proaiStepPrompt "cat") :=
  ((proai_fifteen_fixed_steps provOk 1 none "cat").2 (by decide)).2

/-- C7: `/proai` starts (and registers) a background task iff a subscription
record with plan "professional" exists for the caller and the prompt is
non-empty; a caller with no subscription record receives the "need to
redeem" reply and nothing changes. -/
theorem proai_requires_subscription (st : BotState) (uid : Nat) (text : String) :
    ((∃ tid, Ev.taskStarted tid ∈ (proai_command st uid text).2) ↔
       (alLookup st.subscriptions_collection uid = some "professional" ∧
        extractArgTail text ≠ ""))
  ∧ (alLookup st.subscriptions_collection uid = none →
       proai_command st uid text =
         (st, Ev.reply proaiNeedRedeemMsg ::
            log_message st.log_channel proaiNeedRedeemMsg)) := by
  constructor
  · constructor
    · rintro ⟨tid, htid⟩
      cases h1 : alLookup st.subscriptions_collection uid with
      | none =>
          rw [show proai_command st uid text =
              (st, Ev.reply proaiNeedRedeemMsg ::
                log_message st.log_channel proaiNeedRedeemMsg) by
            simp [proai_command, h1]] at htid
          exact absurd htid (taskStarted_not_mem_reply_log tid st.log_channel _)
      | some plan =>
          by_cases h2 : plan = "professional"
          · subst h2
            by_cases h3 : extractArgTail text = ""
            · rw [show proai_command st uid text =
                  (st, Ev.reply proaiNoPromptMsg ::
                    log_message st.log_channel proaiNoPromptMsg) by
                simp [proai_command, h1, h3]] at htid
              exact absurd htid (taskStarted_not_mem_reply_log tid st.log_channel _)
            · exact ⟨rfl, h3⟩
          · rw [show proai_command st uid text =
                (st, Ev.reply proaiNeedRedeemMsg ::
                  log_message st.log_channel proaiNeedRedeemMsg) by
              simp [proai_command, h1, h2]] at htid
            exact absurd htid (taskStarted_not_mem_reply_log tid st.log_channel _)
    · rintro ⟨hsub, hprompt⟩
      refine ⟨(registerTask st uid TaskKind.proai).2, ?_⟩
      simp [proai_command, hsub, hprompt]
  · intro h
    simp [proai_command, h]

/-- Witness for C7: user 1 has no subscription in `st0`, so `/proai a cat`
yields the need-to-redeem reply and leaves the state unchanged. -/
theorem proai_requires_subscription_witness :
    proai_command st0 1 "/proai a cat" =
      (st0, Ev.reply proaiNeedRedeemMsg ::
        log_message st0.log_channel proaiNeedRedeemMsg) :=
  (proai_requires_subscription st0 1 "/proai a cat").2 rfl

/-- C6: for any caller other than the configured owner, each of `/generate`,
`/setlogchannel`, `/users` and `/broadcast` replies with its refusal message
and leaves the whole state unchanged (no gift code inserted, no log channel
changed, no message sent), whatever the rest of the state is. -/
theorem owner_only_commands_refuse (ownerId : Nat) (st : BotState) (uid : Nat)
    (text code : String) (dOk : Nat → Bool) (h : uid ≠ ownerId) :
    generate_command ownerId st uid code =
      (st, Ev.reply noPermMsg :: log_message st.log_channel noPermMsg)
  ∧ setlogchannel_command ownerId st uid text =
      (st, Ev.reply noPermMsg :: log_message st.log_channel noPermMsg)
  ∧ users_command ownerId st uid =
      (st, Ev.reply notCapableMsg :: log_message st.log_channel notCapableMsg)
  ∧ broadcast_command dOk ownerId st uid text =
      (st, Ev.reply notCapableMsg :: log_message st.log_channel notCapableMsg) := by
  have hb : is_owner ownerId uid = false := by
    simp [is_owner]
    exact h
  refine ⟨?_, ?_, ?_, ?_⟩ <;>
    simp [generate_command, setlogchannel_command, users_command,
      broadcast_command, hb]

/-- Witness for C6: user 1 is not owner 99, so `/generate` refuses and
leaves `st0` unchanged. -/
theorem owner_only_commands_refuse_witness :
    generate_command 99 st0 1 "CODE1" =
      (st0, Ev.reply noPermMsg :: log_message st0.log_channel noPermMsg) :=
  (owner_only_commands_refuse 99 st0 1 "/users" "CODE1" (fun _ => true)
    (by decide)).1

theorem filter_isReplyEv_sends {α : Type} (dOk : Nat → Bool) (msg : String)
    (f : α → Nat) (l : List α) :
    (l.map (fun x => if dOk (f x) then Ev.sendMessage (f x) msg
      else Ev.errorLogged (f x))).filter isReplyEv = [] := by
  induction l with
  | nil => rfl
  | cons hd tl ih =>
      by_cases hh : dOk (f hd) = true <;> simp [hh, isReplyEv, ih]

theorem filter_isReplyEv_log_message (logch : Option String) (s : String) :
    (log_message logch s).filter isReplyEv = [] := by
  cases logch <;> simp [log_message, isReplyEv]

/-- C9: when the owner broadcasts a non-empty message, every stored user and
group is attempted (a successful recipient gets the message, a failing one
has its error logged and the loop continues), the state is unchanged, and
the only direct reply is "Broadcast message sent." however deliveries went. -/
theorem broadcast_partial_failure_tolerant (dOk : Nat → Bool) (ownerId : Nat)
    (st : BotState) (uid : Nat) (text : String)
    (howner : uid = ownerId) (hmsg : extractArgTail text ≠ "") :
    (broadcast_command dOk ownerId st uid text).1 = st
  ∧ (∀ ud ∈ st.users_collection,
       (if dOk ud.user_id then Ev.sendMessage ud.user_id (extractArgTail text)
        else Ev.errorLogged ud.user_id) ∈ (broadcast_command dOk ownerId st uid text).2)
  ∧ (∀ gd ∈ st.groups_collection,
       (if dOk gd.group_id then Ev.sendMessage gd.group_id (extractArgTail text)
        else Ev.errorLogged gd.group_id) ∈ (broadcast_command dOk ownerId st uid text).2)
  ∧ (broadcast_command dOk ownerId st uid text).2.filter isReplyEv =
      [Ev.reply broadcastSentMsg] := by
  have hb : is_owner ownerId uid = true := by
    simp [is_owner, howner]
  have hred : broadcast_command dOk ownerId st uid text =
      (st,
        (st.users_collection.map (fun ud =>
          if dOk ud.user_id then Ev.sendMessage ud.user_id (extractArgTail text)
          else Ev.errorLogged ud.user_id)) ++
        (st.groups_collection.map (fun gd =>
          if dOk gd.group_id then Ev.sendMessage gd.group_id (extractArgTail text)
          else Ev.errorLogged gd.group_id)) ++
        (Ev.reply broadcastSentMsg ::
          log_message st.log_channel broadcastSentMsg)) := by
    simp [broadcast_command, hb, hmsg]
  rw [hred]
  refine ⟨rfl, ?_, ?_, ?_⟩
  · intro ud hud
    exact List.mem_append_left _ (List.mem_append_left _
      (List.mem_map_of_mem _ hud))
  · intro gd hgd
    exact List.mem_append_left _ (List.mem_append_right _
      (List.mem_map_of_mem _ hgd))
  · simp [List.filter_append, filter_isReplyEv_sends,
      filter_isReplyEv_log_message, isReplyEv]

/-- Witness for C9: owner 99 broadcasts "hello" over a state where delivery
to user 7 fails and group 8 succeeds; the only direct reply is still the
broadcast-sent confirmation, and both recipients were attempted. -/
theorem broadcast_partial_failure_tolerant_witness :
    (broadcast_command dOkExceptSeven 99 stBroadcast 99 "/broadcast hello").2.filter
      isReplyEv = [Ev.reply broadcastSentMsg]
  ∧ Ev.errorLogged 7 ∈
      (broadcast_command dOkExceptSeven 99 stBroadcast 99 "/broadcast hello").2
  ∧ Ev.sendMessage 8 "hello" ∈
      (broadcast_command dOkExceptSeven 99 stBroadcast 99 "/broadcast hello").2 := by
  have h := broadcast_partial_failure_tolerant dOkExceptSeven 99 stBroadcast 99
    "/broadcast hello" rfl (by decide)
  refine ⟨h.2.2.2, ?_, ?_⟩
  · have hu := h.2.1 ⟨7, "alice", "Alice A"⟩ (by decide)
    simpa [dOkExceptSeven] using hu
  · have hg := h.2.2.1 ⟨8, "The Group"⟩ (by decide)
    simpa [dOkExceptSeven] using hg

/-- C10: `/ping` always reports 0 ms, because both timestamps are taken from
the same incoming-message date. -/
theorem ping_reports_zero (st : BotState) (date : Int) :
    ping_command st date =
      (st, Ev.reply "Pong!" :: Ev.reply "Pong! 0 ms" ::
        log_message st.log_channel "Pong! 0 ms") := by
  have hs : "Pong! " ++ toString (0 : Int) ++ " ms" = "Pong! 0 ms" := rfl
  simp [ping_command, hs]

/-- C8 counterexample: in `st0` (log channel configured, no prior state),
`/ai` with no prompt fails validation — the reply is the missing-prompt
refusal and it is mirrored — yet the rate-limit timestamp for user 1 IS
recorded, so the validation failure did not short-circuit before a
state-changing effect; and `/cancelai` with no active task replies its
refusal without mirroring anything to the configured log channel. -/
theorem handler_shortcircuit_counterexample :
    ((ai_command st0 1 "/ai" 0).2 =
        [Ev.reply aiNoPromptMsg, Ev.logMirror "log" aiNoPromptMsg]
      ∧ alLookup (ai_command st0 1 "/ai" 0).1.last_ai_use 1 = some 0)
  ∧ cancelai_command st0 1 = (st0, [Ev.reply cancelaiNoneMsg]) :=
  ⟨⟨rfl, rfl⟩, rfl⟩

/-- C8 amended: an authorization failure (non-owner on `/generate`,
unsubscribed caller on `/proai`) short-circuits with no state change and the
refusal is mirrored to the logging relay when configured; an
argument-validation failure of `/ai` performs no store write and starts no
task but does record the rate-limit timestamp before refusing (the refusal
is mirrored); and the `/cancelai` refusal changes nothing but is never
mirrored to the log. -/
theorem handler_shortcircuit_amended (ownerId : Nat) (st : BotState) (uid : Nat)
    (text code : String) (now : Int) :
    (aiAllowed st uid now = true → extractArgTail text = "" →
       ai_command st uid text now =
         ({ st with last_ai_use := alInsert st.last_ai_use uid now },
          Ev.reply aiNoPromptMsg :: log_message st.log_channel aiNoPromptMsg))
  ∧ (alLookup st.subscriptions_collection uid = none →
       proai_command st uid text =
         (st, Ev.reply proaiNeedRedeemMsg ::
           log_message st.log_channel proaiNeedRedeemMsg))
  ∧ (uid ≠ ownerId →
       generate_command ownerId st uid code =
         (st, Ev.reply noPermMsg :: log_message st.log_channel noPermMsg))
  ∧ ((¬ ∃ tid tr, alLookup st.user_tasks uid = some tid ∧
        alLookup st.tasks tid = some tr ∧ tr.done = false) →
       cancelai_command st uid = (st, [Ev.reply cancelaiNoneMsg])) := by
  refine ⟨?_, ?_, ?_, ?_⟩
  · intro hallow hval
    unfold ai_command
    unfold aiAllowed at hallow
    cases hlast : alLookup st.last_ai_use uid with
    | none => simp [ai_command_allowed, hval]
    | some last =>
        rw [hlast] at hallow
        have h5 : ¬ now - last < 5 := by
          have := of_decide_eq_true hallow
          omega
        simp [hlast, h5, ai_command_allowed, hval]
  · intro h
    simp [proai_command, h]
  · intro h
    have hb : is_owner ownerId uid = false := by
      simp [is_owner]
      exact h
    simp [generate_command, hb]
  · intro hno
    push_neg at hno
    cases h1 : alLookup st.user_tasks uid with
    | none => simp [cancelai_command, h1]
    | some tid =>
        cases h2 : alLookup st.tasks tid with
        | none => simp [cancelai_command, h1, h2]
        | some tr =>
            have h3 := hno tid tr h1 h2
            simp [cancelai_command, h1, h2, h3]

/-- Witness for the amended C8: `/ai` with an empty prompt at time 3 in
`st0` records the timestamp and mirrors the refusal; user 1 is not owner 99
so `/generate` refuses without change. -/
theorem handler_shortcircuit_amended_witness :
    ai_command st0 1 "/ai" 3 =
      ({ st0 with last_ai_use := alInsert st0.last_ai_use 1 3 },
       Ev.reply aiNoPromptMsg :: log_message st0.log_channel aiNoPromptMsg)
  ∧ generate_command 99 st0 1 "XK42" =
      (st0, Ev.reply noPermMsg :: log_message st0.log_channel noPermMsg) :=
  ⟨(handler_shortcircuit_amended 99 st0 1 "/ai" "XK42" 3).1 (by decide) (by decide),
   (handler_shortcircuit_amended 99 st0 1 "/ai" "XK42" 3).2.2.1 (by decide)⟩
